import Mathlib

/-!
Verification development for the waste_zero backend, covering the points
ledger (core/points), the donation workflows (core/donations) and the
status-transition guards shared by the order, offer, transaction and
notification views. Each definition is a shallow embedding of the Python
view or model method it is named after; stores are explicit association
lists in table order, and every endpoint returns its response together
with the resulting store.
-/

namespace WasteZero

/-! ## Points ledger (core/points/models.py, core/points/views.py)

A `Point` row holds `user` (a one-to-one reference, hence at most one row
per user id) and `balance` (a non-negative integer, `PositiveIntegerField`
with default 0). The `last_updated` timestamp plays no role in any claim
and is omitted. The ledger store is the list of rows in table order. -/

structure PointRec where
  user_id : Nat
  balance : Nat
deriving Repr, DecidableEq

abbrev PointsDb := List PointRec

/-- Embeds `Point.objects.get(user_id=uid)` or the detail-view object lookup:
the row whose `user_id` matches, if any (first match in table order; the
one-to-one field makes the match unique on a well-formed store). -/
def pointsGet (db : PointsDb) (uid : Nat) : Option PointRec :=
  db.find? (fun r => r.user_id == uid)

/-- Embeds `point.save()` on a fetched `Point` instance: the in-memory field
values are written back to the row with the same key. -/
def pointsSave (db : PointsDb) (r : PointRec) : PointsDb :=
  db.map (fun q => if q.user_id == r.user_id then r else q)

/-- Embeds `Point.add_points` from core/points/models.py:
`self.balance += amount; self.save()`. The caller validates positivity, so
the amount arrives here as a `Nat`. Returns the mutated instance and the
updated store. -/
def add_points (db : PointsDb) (p : PointRec) (amount : Nat) : PointRec × PointsDb :=
  let p' : PointRec := ⟨p.user_id, p.balance + amount⟩
  (p', pointsSave db p')

/-- Responses of `AddPointsView.patch`, keyed by the branch of the view that
produces them (200 success with the serialized new balance, 400 invalid
amount, 400 missing field, 404 point record not found). -/
inductive AddPointsResp where
  | ok (newBalance : Nat)
  | invalidAmount
  | missingAmount
  | notFound
deriving Repr, DecidableEq

/-- Embeds `AddPointsView.patch` from core/points/views.py. Order of checks
follows the code: object lookup (404 on `Http404`), presence of `amount`
(400), `int(...)` with a positivity check (400 on `amount <= 0`), then
`point.add_points(amount)` and a 200 response carrying the new balance.
A non-numeric amount raises the same `ValueError` as a non-positive one, so
amounts are modelled as integers. -/
def addPointsPatch (db : PointsDb) (uid : Nat) (amount : Option Int) :
    AddPointsResp × PointsDb :=
  match pointsGet db uid with
  | none => (.notFound, db)
  | some point =>
    match amount with
    | none => (.missingAmount, db)
    | some a =>
      if a ≤ 0 then (.invalidAmount, db)
      else
        let r := add_points db point a.toNat
        (.ok r.1.balance, r.2)

/-- Responses of `UserPointsTransferView.post` (200 success carrying the two
resulting balances, 400 invalid amount, 404 for a missing account, 400
insufficient balance). -/
inductive TransferResp where
  | ok (fromBal toBal : Nat)
  | invalidAmount
  | notFound
  | insufficientBalance
deriving Repr, DecidableEq

/-- Embeds `UserPointsTransferView.post` from core/points/views.py for a
request carrying all three required fields (the missing-field branch is not
reachable with total arguments). Order of checks follows the code: amount
positivity, the two `Point.objects.get` lookups, the balance check
`from_point.balance < amount`, then the two in-memory mutations and the two
saves, source first, destination second. The destination instance is the one
fetched before either save, exactly as in the code. -/
def transferPost (db : PointsDb) (from_user_id to_user_id : Nat) (amount : Int) :
    TransferResp × PointsDb :=
  if amount ≤ 0 then (.invalidAmount, db)
  else
    match pointsGet db from_user_id, pointsGet db to_user_id with
    | some from_point, some to_point =>
      if from_point.balance < amount.toNat then (.insufficientBalance, db)
      else
        let from' : PointRec := ⟨from_point.user_id, from_point.balance - amount.toNat⟩
        let to' : PointRec := ⟨to_point.user_id, to_point.balance + amount.toNat⟩
        let db1 := pointsSave db from'
        let db2 := pointsSave db1 to'
        (.ok from'.balance to'.balance, db2)
    | _, _ => (.notFound, db)

/-- Embeds `Point.objects.all().order_by('-balance')` as used by
`PointLeaderboardView`: the sort key is the balance, descending, and nothing
else; the order of rows with equal balances is unspecified by the query, and
the embedding resolves it by table order (stable sort). -/
def orderByBalanceDesc (db : PointsDb) : PointsDb :=
  db.insertionSort (fun a b => b.balance ≤ a.balance)

/-- Embeds `PointLeaderboardView.get` from core/points/views.py: the limit
query parameter (default 10 when absent, supplied here by the caller) is
coerced to 10 when non-positive, and the response is the first `limit` rows
of the balance-descending ordering. -/
def leaderboardGet (db : PointsDb) (limit : Int) : PointsDb :=
  let limit' := if limit ≤ 0 then (10 : Int) else limit
  (orderByBalanceDesc db).take limit'.toNat

/-- Written from the words of the spec, for comparison with the code: among
rows of equal balance, the one with the smaller account identifier comes
first. -/
def tiesByIdAscSpec (l : List PointRec) : Prop :=
  l.Pairwise (fun a b => a.balance = b.balance → a.user_id < b.user_id)

instance (l : List PointRec) : Decidable (tiesByIdAscSpec l) :=
  inferInstanceAs (Decidable (l.Pairwise _))

/-! ## Donations (core/donations/models.py, core/donations/views.py)

A `Donation` row holds `donor` (required user reference), `recipient`
(nullable user reference), `title`, `description`, `photo`, `status`
(a `CharField` over `STATUS_CHOICES`) and timestamps. Only `id`, `donor`,
`recipient` and `status` are read or written by the operations the claims
concern; the remaining columns ride along unchanged and are omitted. -/

structure DonationRec where
  id : Nat
  donor : Nat
  recipient : Option Nat
  status : String
deriving Repr, DecidableEq

abbrev DonationsDb := List DonationRec

/-- Embeds `Donation.STATUS_CHOICES` (the first component of each pair). -/
def Donation_STATUS_CHOICES : List String := ["available", "reserved", "collected"]

/-- Embeds `self.get_object()` on the donation queryset: the row with the
given primary key, if any. -/
def donationsGet (db : DonationsDb) (i : Nat) : Option DonationRec :=
  db.find? (fun d => d.id == i)

/-- Embeds the framework-level `super().save(*args, **kwargs)` inside
`Donation.save`: write the instance back to the row with the same primary
key, or insert it as a new row. -/
def donationsSuperSave (db : DonationsDb) (d : DonationRec) : DonationsDb :=
  if (db.find? (fun q => q.id == d.id)).isSome then
    db.map (fun q => if q.id == d.id then d else q)
  else
    db ++ [d]

/-- Python exceptions that the embedded code can raise. -/
inductive PyError where
  | typeError
deriving Repr, DecidableEq

/-- Embeds the call `Point.objects.create(user=self.donor, points=10)` made
by `Donation.save` in core/donations/models.py. The `Point` model declares
the fields `user`, `balance` and `last_updated` only — it has no field named
`points` — and a Django model constructor raises `TypeError` on an
unexpected keyword argument. The call therefore always raises and never
inserts a row or credits any balance. -/
def pointObjectsCreatePoints10 (_ledger : PointsDb) (_donor : Nat) :
    Except PyError PointsDb :=
  .error .typeError

/-- Result of running the overridden `Donation.save`: the donation store
after the framework save, the ledger store, and the exception propagating
out of the method, if any. The row write happens before the point-credit
call, so a raised exception leaves the row already persisted. -/
structure DonationSaveOutcome where
  donations : DonationsDb
  ledger : PointsDb
  raised : Option PyError
deriving Repr, DecidableEq

/-- Embeds the overridden `Donation.save` from core/donations/models.py:
`super().save()` persists the row first; then, whenever the saved status is
"available" — on every save, creation or update alike — the method calls
`Point.objects.create(user=self.donor, points=10)`, whose `TypeError`
propagates after the row is already persisted. -/
def donationSave (db : DonationsDb) (ledger : PointsDb) (d : DonationRec) :
    DonationSaveOutcome :=
  let db' := donationsSuperSave db d
  if d.status = "available" then
    match pointObjectsCreatePoints10 ledger d.donor with
    | .error e => ⟨db', ledger, some e⟩
    | .ok ledger' => ⟨db', ledger', none⟩
  else
    ⟨db', ledger, none⟩

/-- Responses of `DonationListCreateView.post` for a serializer-valid
payload (201 created, or the 500 produced by the blanket
`except Exception` handler). -/
inductive CreateDonationResp where
  | created (d : DonationRec)
  | serverError (e : PyError)
deriving Repr, DecidableEq

/-- Embeds the create path of `DonationListCreateView.post` for a valid
payload: `serializer.save(donor=request.user)` constructs the row (donor
forced to the caller, status defaulting to "available" when absent) and
runs the overridden `Donation.save`; an exception raised there is caught by
the blanket handler and turned into a 500 response, after the row write. -/
def donationCreatePost (db : DonationsDb) (ledger : PointsDb) (d : DonationRec) :
    CreateDonationResp × DonationsDb × PointsDb :=
  let o := donationSave db ledger d
  match o.raised with
  | some e => (.serverError e, o.donations, o.ledger)
  | none => (.created d, o.donations, o.ledger)

/-- Responses of `DonationStatusUpdateView.patch`. -/
inductive DonationPatchResp where
  | ok (d : DonationRec)
  | missingField
  | invalidStatus (msg : String)
  | notFound
  | serverError (e : PyError)
deriving Repr, DecidableEq

/-- Embeds `DonationStatusUpdateView.patch` from core/donations/views.py.
Order of operations follows the code: object lookup (404), presence of
`status` (400), enum membership (400 naming the valid set), then — with no
further condition — a supplied truthy `recipient` is written onto the
instance, the status is set, and `donation.save()` (the overridden save)
runs; an exception from the save is caught by the blanket handler as a 500
after the row was persisted. -/
def donationStatusUpdatePatch (db : DonationsDb) (ledger : PointsDb)
    (donationId : Nat) (reqStatus : Option String) (reqRecipient : Option Nat) :
    DonationPatchResp × DonationsDb × PointsDb :=
  match donationsGet db donationId with
  | none => (.notFound, db, ledger)
  | some donation =>
    match reqStatus with
    | none => (.missingField, db, ledger)
    | some status_value =>
      if status_value ∉ Donation_STATUS_CHOICES then
        (.invalidStatus ("Must be one of: " ++
           String.intercalate ", " Donation_STATUS_CHOICES), db, ledger)
      else
        let donation1 :=
          match reqRecipient with
          | some r => { donation with recipient := some r }
          | none => donation
        let donation2 := { donation1 with status := status_value }
        let o := donationSave db ledger donation2
        match o.raised with
        | some e => (.serverError e, o.donations, o.ledger)
        | none => (.ok donation2, o.donations, o.ledger)

/-- Responses of `ReserveDonationView.patch`. -/
inductive ReserveResp where
  | ok (d : DonationRec)
  | forbidden
  | notAvailable
  | missingRecipient
  | notFound
deriving Repr, DecidableEq

/-- Embeds the permission check at the top of `ReserveDonationView.patch`:
true exactly when the request carries a `recipient` differing from the id of
the requesting user (the code compares `str(request.user.id)` with the
payload string; ids are modelled canonically as naturals). -/
def forbiddenCheck (requestUserId : Nat) (reqRecipient : Option Nat) : Bool :=
  match reqRecipient with
  | some r => requestUserId != r
  | none => false

/-- Embeds the read-and-validate prefix of `ReserveDonationView.patch` —
everything before `donation.save()`: the object lookup and the permission,
availability and presence checks, all evaluated against the fetched
snapshot. Returns the error response, or the mutated in-memory donation
(recipient bound, status set to "reserved") ready to be saved. -/
def reserveCheckPhase (db : DonationsDb) (donationId : Nat)
    (requestUserId : Nat) (reqRecipient : Option Nat) :
    Except ReserveResp DonationRec :=
  match donationsGet db donationId with
  | none => .error .notFound
  | some donation =>
    if forbiddenCheck requestUserId reqRecipient then .error .forbidden
    else if donation.status ≠ "available" then .error .notAvailable
    else
      match reqRecipient with
      | none => .error .missingRecipient
      | some r => .ok { donation with recipient := some r, status := "reserved" }

/-- Embeds the write suffix of `ReserveDonationView.patch`: `donation.save()`
(the overridden save — the status being written is "reserved", so the
point-credit branch does not fire) followed by the 200 response carrying the
updated donation. -/
def reserveWritePhase (db : DonationsDb) (ledger : PointsDb) (d : DonationRec) :
    ReserveResp × DonationsDb × PointsDb :=
  let o := donationSave db ledger d
  (.ok d, o.donations, o.ledger)

/-- Embeds `ReserveDonationView.patch` as executed by a single request:
the check phase against the current store, then — if all checks pass — the
write phase. -/
def reserveDonationPatch (db : DonationsDb) (ledger : PointsDb)
    (donationId : Nat) (requestUserId : Nat) (reqRecipient : Option Nat) :
    ReserveResp × DonationsDb × PointsDb :=
  match reserveCheckPhase db donationId requestUserId reqRecipient with
  | .error resp => (resp, db, ledger)
  | .ok d => reserveWritePhase db ledger d

/-- Embeds one interleaving of two concurrent `ReserveDonationView.patch`
requests on the same store: both requests run their read-and-check phase
against the initial store before either write executes, then the writes run
in order. The view takes no lock and issues no conditional update, so its
read (`get_object`), check (`status != available`) and write (`save`) are
separate steps and this schedule is admitted by the request model. -/
def reserveInterleaved (db : DonationsDb) (ledger : PointsDb) (donationId : Nat)
    (u1 : Nat) (r1 : Option Nat) (u2 : Nat) (r2 : Option Nat) :
    ReserveResp × ReserveResp × DonationsDb × PointsDb :=
  match reserveCheckPhase db donationId u1 r1,
        reserveCheckPhase db donationId u2 r2 with
  | .ok d1, .ok d2 =>
    let o1 := donationSave db ledger d1
    let o2 := donationSave o1.donations o1.ledger d2
    (.ok d1, .ok d2, o2.donations, o2.ledger)
  | .ok d1, .error e2 =>
    let o1 := donationSave db ledger d1
    (.ok d1, e2, o1.donations, o1.ledger)
  | .error e1, .ok d2 =>
    let o2 := donationSave db ledger d2
    (e1, .ok d2, o2.donations, o2.ledger)
  | .error e1, .error e2 => (e1, e2, db, ledger)

/-! ## Generic status guard (orders, offers, transactions, notifications)

The status-update views of `OrderStatusUpdateView`, `OfferStatusUpdateView`,
`TransactionStatusUpdateView` and `NotificationStatusUpdateView` are
line-for-line copies of one another differing only in the model and its
`STATUS_CHOICES`: object lookup (404), presence of `status` (400), enum
membership (400 naming the valid set), then write the status field and
save. Only `id` and `status` of the target row are read or written. -/

structure StatusRow where
  id : Nat
  status : String
deriving Repr, DecidableEq

/-- Responses of the four copy-pasted status-update `patch` methods. -/
inductive StatusPatchResp where
  | ok (row : StatusRow)
  | missingField
  | invalidStatus (msg : String)
  | notFound
deriving Repr, DecidableEq

/-- Embeds the shared body of the four status-update `patch` methods,
parameterized by the valid status list of the model at hand. -/
def statusPatchCore (valid_statuses : List String) (db : List StatusRow)
    (rowId : Nat) (reqStatus : Option String) : StatusPatchResp × List StatusRow :=
  match db.find? (fun r => r.id == rowId) with
  | none => (.notFound, db)
  | some row =>
    match reqStatus with
    | none => (.missingField, db)
    | some status_value =>
      if status_value ∉ valid_statuses then
        (.invalidStatus ("Must be one of: " ++
           String.intercalate ", " valid_statuses), db)
      else
        let row' : StatusRow := ⟨row.id, status_value⟩
        (.ok row', db.map (fun q => if q.id == row.id then row' else q))

/-- Embeds `Order.STATUS_CHOICES`. -/
def Order_STATUS_CHOICES : List String := ["pending", "confirmed", "canceled", "completed"]

/-- Embeds `Offer.STATUS_CHOICES`. -/
def Offer_STATUS_CHOICES : List String := ["available", "reserved", "collected"]

/-- Embeds `Transaction.STATUS_CHOICES`. -/
def Transaction_STATUS_CHOICES : List String := ["pending", "successful", "failed"]

/-- Embeds `Notification.STATUS_CHOICES`. -/
def Notification_STATUS_CHOICES : List String := ["sent", "read"]

/-- Embeds `OrderStatusUpdateView.patch` from core/orders/views.py. -/
def orderStatusUpdatePatch : List StatusRow → Nat → Option String →
    StatusPatchResp × List StatusRow :=
  statusPatchCore Order_STATUS_CHOICES

/-- Embeds `OfferStatusUpdateView.patch` from core/offers/views.py. -/
def offerStatusUpdatePatch : List StatusRow → Nat → Option String →
    StatusPatchResp × List StatusRow :=
  statusPatchCore Offer_STATUS_CHOICES

/-- Embeds `TransactionStatusUpdateView.patch` from core/transactions/views.py. -/
def transactionStatusUpdatePatch : List StatusRow → Nat → Option String →
    StatusPatchResp × List StatusRow :=
  statusPatchCore Transaction_STATUS_CHOICES

/-- Embeds `NotificationStatusUpdateView.patch` from core/notifications/views.py. -/
def notificationStatusUpdatePatch : List StatusRow → Nat → Option String →
    StatusPatchResp × List StatusRow :=
  statusPatchCore Notification_STATUS_CHOICES

/-! ## Store lemmas -/

lemma pointsGet_pointsSave_self (db : PointsDb) (r q : PointRec)
    (h : pointsGet db r.user_id = some q) :
    pointsGet (pointsSave db r) r.user_id = some r := by
  induction db with
  | nil => simp [pointsGet] at h
  | cons a tl ih =>
    simp only [pointsGet, pointsSave] at h ih ⊢
    rw [List.map_cons, List.find?_cons]
    rw [List.find?_cons] at h
    cases hb : (a.user_id == r.user_id) with
    | true => simp [hb]
    | false =>
      simp only [hb] at h
      simp only [hb, Bool.false_eq_true, if_false]
      exact ih h

lemma pointsGet_pointsSave_other (db : PointsDb) (r : PointRec) (uid : Nat)
    (h : uid ≠ r.user_id) :
    pointsGet (pointsSave db r) uid = pointsGet db uid := by
  induction db with
  | nil => rfl
  | cons a tl ih =>
    simp only [pointsGet, pointsSave] at ih ⊢
    rw [List.map_cons, List.find?_cons, List.find?_cons]
    cases hb : (a.user_id == r.user_id) with
    | true =>
      have hau : (a.user_id == uid) = false := by
        simp only [beq_iff_eq] at hb
        simp only [beq_eq_false_iff_ne, ne_eq, hb]
        exact fun hx => h hx.symm
      have hru : (r.user_id == uid) = false := by
        simp only [beq_eq_false_iff_ne, ne_eq]
        exact fun hx => h hx.symm
      simpa [hb, hau, hru] using ih
    | false =>
      cases hau : (a.user_id == uid) with
      | true => simp [hb, hau]
      | false => simpa [hb, hau] using ih

lemma donationsGet_id (db : DonationsDb) (i : Nat) (d : DonationRec)
    (h : donationsGet db i = some d) : d.id = i := by
  have hp := List.find?_some h
  simpa [beq_iff_eq] using hp

lemma find?_map_update_self (db : DonationsDb) (d e : DonationRec)
    (h : donationsGet db d.id = some e) :
    (db.map (fun q => if q.id == d.id then d else q)).find?
      (fun q => q.id == d.id) = some d := by
  induction db with
  | nil => simp [donationsGet] at h
  | cons a tl ih =>
    simp only [donationsGet] at h ih
    rw [List.map_cons, List.find?_cons]
    rw [List.find?_cons] at h
    cases hb : (a.id == d.id) with
    | true => simp [hb]
    | false =>
      simp only [hb] at h
      simp only [hb, Bool.false_eq_true, if_false]
      exact ih h

lemma donationsGet_superSave_self (db : DonationsDb) (d e : DonationRec)
    (h : donationsGet db d.id = some e) :
    donationsGet (donationsSuperSave db d) d.id = some d := by
  unfold donationsSuperSave
  have hs : (db.find? (fun q => q.id == d.id)).isSome := by
    unfold donationsGet at h
    simp [h]
  rw [if_pos hs]
  exact find?_map_update_self db d e h

instance : IsTotal PointRec (fun a b => b.balance ≤ a.balance) :=
  ⟨fun a b => le_total b.balance a.balance⟩

instance : IsTrans PointRec (fun a b => b.balance ≤ a.balance) :=
  ⟨fun _ _ _ hab hbc => le_trans hbc hab⟩

/-! ## Claims about the points ledger -/

/-- C2: for every pair of distinct existing accounts with balances B1 and B2
and every amount with 0 < amount and amount ≤ B1, the transfer succeeds,
returns the two resulting balances B1 - amount and B2 + amount, persists
exactly those balances on the two rows, and conserves the total. -/
theorem C2_transfer_success (db : PointsDb) (a b B1 B2 amount : Nat)
    (hab : a ≠ b)
    (ha : pointsGet db a = some ⟨a, B1⟩)
    (hb : pointsGet db b = some ⟨b, B2⟩)
    (hpos : 0 < amount) (hle : amount ≤ B1) :
    (transferPost db a b (amount : Int)).1
        = .ok (B1 - amount) (B2 + amount) ∧
    pointsGet (transferPost db a b (amount : Int)).2 a = some ⟨a, B1 - amount⟩ ∧
    pointsGet (transferPost db a b (amount : Int)).2 b = some ⟨b, B2 + amount⟩ ∧
    (B1 - amount) + (B2 + amount) = B1 + B2 := by
  have h0 : ¬ ((amount : Int) ≤ 0) := by
    simp only [not_le]
    exact_mod_cast hpos
  have hnl : ¬ (B1 < ((amount : Int)).toNat) := by
    rw [Int.toNat_natCast]
    omega
  have hres : transferPost db a b (amount : Int)
      = (.ok (B1 - amount) (B2 + amount),
         pointsSave (pointsSave db ⟨a, B1 - amount⟩) ⟨b, B2 + amount⟩) := by
    simp only [transferPost, if_neg h0, ha, hb, Int.toNat_natCast] at hnl ⊢
    rw [if_neg hnl]
  refine ⟨by rw [hres], ?_, ?_, by omega⟩
  · rw [hres]
    have h2 := pointsGet_pointsSave_other
      (pointsSave db ⟨a, B1 - amount⟩) ⟨b, B2 + amount⟩ a hab
    rw [h2]
    exact pointsGet_pointsSave_self db ⟨a, B1 - amount⟩ ⟨a, B1⟩ ha
  · rw [hres]
    have h3 := pointsGet_pointsSave_other db ⟨a, B1 - amount⟩ b
      (fun hx => hab hx.symm)
    refine pointsGet_pointsSave_self (pointsSave db ⟨a, B1 - amount⟩)
      ⟨b, B2 + amount⟩ ⟨b, B2⟩ ?_
    rw [h3]
    exact hb

/-- C2 witness: the example of spec section 8 — balances Alice 50, Bob 5,
transfer of 30 yields 20 and 35 with the total conserved. -/
theorem C2_transfer_success_witness :
    (1 : Nat) ≠ 2 ∧
    pointsGet [⟨1, 50⟩, ⟨2, 5⟩] 1 = some ⟨1, 50⟩ ∧
    pointsGet [⟨1, 50⟩, ⟨2, 5⟩] 2 = some ⟨2, 5⟩ ∧
    (0 : Nat) < 30 ∧ (30 : Nat) ≤ 50 ∧
    ((transferPost [⟨1, 50⟩, ⟨2, 5⟩] 1 2 ((30 : Nat) : Int)).1
        = .ok (50 - 30) (5 + 30) ∧
     pointsGet (transferPost [⟨1, 50⟩, ⟨2, 5⟩] 1 2 ((30 : Nat) : Int)).2 1
        = some ⟨1, 50 - 30⟩ ∧
     pointsGet (transferPost [⟨1, 50⟩, ⟨2, 5⟩] 1 2 ((30 : Nat) : Int)).2 2
        = some ⟨2, 5 + 30⟩ ∧
     (50 - 30) + (5 + 30) = 50 + 5) :=
  ⟨by decide, by decide, by decide, by decide, by decide,
   C2_transfer_success [⟨1, 50⟩, ⟨2, 5⟩] 1 2 50 5 30
     (by decide) (by decide) (by decide) (by decide) (by decide)⟩

/-- C3: for every pair of existing accounts and every positive amount
strictly greater than the source balance, the transfer fails with the
insufficient-balance error and the store is returned unchanged, so neither
balance is mutated. -/
theorem C3_transfer_insufficient (db : PointsDb) (a b B1 B2 amount : Nat)
    (ha : pointsGet db a = some ⟨a, B1⟩)
    (hb : pointsGet db b = some ⟨b, B2⟩)
    (hpos : 0 < amount) (hgt : B1 < amount) :
    transferPost db a b (amount : Int) = (.insufficientBalance, db) := by
  have h0 : ¬ ((amount : Int) ≤ 0) := by
    simp only [not_le]
    exact_mod_cast hpos
  simp only [transferPost, if_neg h0, ha, hb, Int.toNat_natCast]
  rw [if_pos hgt]

/-- C3 witness: the example of spec section 8 — Bob holding 5 cannot send
100 to Alice; the store is untouched. -/
theorem C3_transfer_insufficient_witness :
    pointsGet [⟨1, 20⟩, ⟨2, 35⟩] 2 = some ⟨2, 35⟩ ∧
    pointsGet [⟨1, 20⟩, ⟨2, 35⟩] 1 = some ⟨1, 20⟩ ∧
    (0 : Nat) < 100 ∧ (35 : Nat) < 100 ∧
    transferPost [⟨1, 20⟩, ⟨2, 35⟩] 2 1 ((100 : Nat) : Int)
      = (.insufficientBalance, [⟨1, 20⟩, ⟨2, 35⟩]) :=
  ⟨by decide, by decide, by decide, by decide,
   C3_transfer_insufficient [⟨1, 20⟩, ⟨2, 35⟩] 2 1 35 20 100
     (by decide) (by decide) (by decide) (by decide)⟩

/-- C7: for every existing account, a non-positive amount fails with the
invalid-amount error and leaves the store unchanged, while a positive
amount increments the balance by that amount, persists it, and the response
carries the new balance. -/
theorem C7_add_points (db : PointsDb) (uid bal : Nat)
    (h : pointsGet db uid = some ⟨uid, bal⟩) (amount : Int) :
    (amount ≤ 0 → addPointsPatch db uid (some amount) = (.invalidAmount, db)) ∧
    (0 < amount →
      (addPointsPatch db uid (some amount)).1 = .ok (bal + amount.toNat) ∧
      pointsGet (addPointsPatch db uid (some amount)).2 uid
        = some ⟨uid, bal + amount.toNat⟩) := by
  constructor
  · intro hle
    simp only [addPointsPatch, h]
    rw [if_pos hle]
  · intro hpos
    have hnle : ¬ (amount ≤ 0) := not_le.mpr hpos
    have hres : addPointsPatch db uid (some amount)
        = (.ok (bal + amount.toNat), pointsSave db ⟨uid, bal + amount.toNat⟩) := by
      simp only [addPointsPatch, h, add_points]
      rw [if_neg hnle]
    rw [hres]
    exact ⟨rfl, pointsGet_pointsSave_self db ⟨uid, bal + amount.toNat⟩ ⟨uid, bal⟩ h⟩

/-- C7 witness: on an account holding 5, an amount of -2 is rejected with
the store unchanged, and an amount of 3 yields and persists balance 8. -/
theorem C7_add_points_witness :
    pointsGet [⟨1, 5⟩] 1 = some ⟨1, 5⟩ ∧
    (((-2 : Int) ≤ 0 → addPointsPatch [⟨1, 5⟩] 1 (some (-2)) = (.invalidAmount, [⟨1, 5⟩])) ∧
     ((0 : Int) < -2 →
       (addPointsPatch [⟨1, 5⟩] 1 (some (-2))).1 = .ok (5 + (-2 : Int).toNat) ∧
       pointsGet (addPointsPatch [⟨1, 5⟩] 1 (some (-2))).2 1
         = some ⟨1, 5 + (-2 : Int).toNat⟩)) ∧
    (((3 : Int) ≤ 0 → addPointsPatch [⟨1, 5⟩] 1 (some 3) = (.invalidAmount, [⟨1, 5⟩])) ∧
     ((0 : Int) < 3 →
       (addPointsPatch [⟨1, 5⟩] 1 (some 3)).1 = .ok (5 + (3 : Int).toNat) ∧
       pointsGet (addPointsPatch [⟨1, 5⟩] 1 (some 3)).2 1
         = some ⟨1, 5 + (3 : Int).toNat⟩)) :=
  ⟨by decide,
   C7_add_points [⟨1, 5⟩] 1 5 (by decide) (-2),
   C7_add_points [⟨1, 5⟩] 1 5 (by decide) 3⟩

/-- C10: a transfer whose source and destination ids coincide, on an account
whose balance (5) covers the positive amount (3), succeeds and persists a
balance equal to the original plus the amount: the two fetches are separate
copies of the one row, and the destination save overwrites the source save,
so the total of all balances grows by the amount instead of being
conserved. -/
theorem C10_self_transfer_inflates :
    transferPost [⟨1, 5⟩] 1 1 3 = (.ok 2 8, [⟨1, 8⟩]) ∧
    pointsGet [(⟨1, 8⟩ : PointRec)] 1 = some ⟨1, 8⟩ ∧
    (8 : Nat) = 5 + 3 := by
  refine ⟨by decide, by decide, by decide⟩

/-- C6 counterexample: with table order listing account 2 before account 1,
both holding balance 5, the leaderboard keeps account 2 first — equal
balances are not ordered by ascending account identifier. -/
theorem C6_counterexample :
    leaderboardGet [⟨2, 5⟩, ⟨1, 5⟩] 10 = [⟨2, 5⟩, ⟨1, 5⟩] ∧
    ¬ tiesByIdAscSpec (leaderboardGet [⟨2, 5⟩, ⟨1, 5⟩] 10) := by
  refine ⟨by decide, by decide⟩

/-- C6 (amended): the leaderboard returns at most limit accounts, with a
non-positive limit coerced to the default 10, ordered by balance
descending; the order among accounts of equal balance follows the
underlying table order and is not the id-ascending tie-break the claim
states. -/
theorem C6_leaderboard (db : PointsDb) (limit : Int) :
    (leaderboardGet db limit).length ≤ (if limit ≤ 0 then (10 : Int) else limit).toNat ∧
    List.Sorted (fun a b => b.balance ≤ a.balance) (leaderboardGet db limit) ∧
    (limit ≤ 0 → leaderboardGet db limit = leaderboardGet db 10) := by
  refine ⟨?_, ?_, ?_⟩
  · simp only [leaderboardGet, List.length_take]
    exact min_le_left _ _
  · exact List.Pairwise.sublist (List.take_sublist _ _)
      (List.sorted_insertionSort _ db)
  · intro hle
    have h10 : ¬ ((10 : Int) ≤ 0) := by decide
    simp only [leaderboardGet, if_pos hle, if_neg h10]

/-- C6 witness: with three accounts and limit -1, the result is the
default-sized balance-descending list. -/
theorem C6_leaderboard_witness :
    (leaderboardGet [⟨1, 3⟩, ⟨2, 7⟩, ⟨3, 5⟩] (-1)).length
        ≤ (if (-1 : Int) ≤ 0 then (10 : Int) else -1).toNat ∧
    List.Sorted (fun a b : PointRec => b.balance ≤ a.balance)
        (leaderboardGet [⟨1, 3⟩, ⟨2, 7⟩, ⟨3, 5⟩] (-1)) ∧
    ((-1 : Int) ≤ 0 →
      leaderboardGet [⟨1, 3⟩, ⟨2, 7⟩, ⟨3, 5⟩] (-1)
        = leaderboardGet [⟨1, 3⟩, ⟨2, 7⟩, ⟨3, 5⟩] 10) :=
  C6_leaderboard [⟨1, 3⟩, ⟨2, 7⟩, ⟨3, 5⟩] (-1)

/-! ## Reservation and status-guard lemmas -/

lemma reserveDonationPatch_success (db : DonationsDb) (ledger : PointsDb)
    (i u : Nat) (d : DonationRec)
    (hd : donationsGet db i = some d) (hav : d.status = "available") :
    reserveDonationPatch db ledger i u (some u)
      = (.ok { d with recipient := some u, status := "reserved" },
         donationsSuperSave db { d with recipient := some u, status := "reserved" },
         ledger) := by
  have hcheck : reserveCheckPhase db i u (some u)
      = .ok { d with recipient := some u, status := "reserved" } := by
    simp only [reserveCheckPhase, hd, forbiddenCheck]
    simp [hav]
  simp only [reserveDonationPatch, hcheck, reserveWritePhase, donationSave]
  simp

lemma reserveDonationPatch_notAvailable (db : DonationsDb) (ledger : PointsDb)
    (i u : Nat) (r : Option Nat) (d : DonationRec)
    (hd : donationsGet db i = some d)
    (hfb : forbiddenCheck u r = false)
    (hst : d.status ≠ "available") :
    reserveDonationPatch db ledger i u r = (.notAvailable, db, ledger) := by
  have hcheck : reserveCheckPhase db i u r = .error .notAvailable := by
    simp only [reserveCheckPhase, hd, hfb]
    simp [hst]
  simp [reserveDonationPatch, hcheck]

lemma statusPatchCore_invalid (vs : List String) (db : List StatusRow) (i : Nat)
    (row : StatusRow) (s : String)
    (hrow : db.find? (fun r => r.id == i) = some row) (hs : s ∉ vs) :
    statusPatchCore vs db i (some s)
      = (.invalidStatus ("Must be one of: " ++ String.intercalate ", " vs), db) := by
  simp only [statusPatchCore, hrow]
  rw [if_pos hs]

lemma donationPatch_invalid (db : DonationsDb) (ledger : PointsDb) (i : Nat)
    (d : DonationRec) (s : String) (r : Option Nat)
    (hd : donationsGet db i = some d) (hs : s ∉ Donation_STATUS_CHOICES) :
    donationStatusUpdatePatch db ledger i (some s) r
      = (.invalidStatus ("Must be one of: " ++
           String.intercalate ", " Donation_STATUS_CHOICES), db, ledger) := by
  simp only [donationStatusUpdatePatch, hd]
  rw [if_pos hs]

/-! ## Claims about donations and the status guards -/

/-- C1: the reward trigger is broken in the code. Creating a donation with
status "available" persists the row and then runs
`Point.objects.create(user=self.donor, points=10)`, which raises
`TypeError` because the `Point` model has no field named `points`; the view
turns this into a 500 response and the ledger is left unchanged — no
balance is ever credited 10 points. The same call also fires on every
subsequent save of an available donation, not only on creation. -/
theorem C1_reward_trigger_bug (db : DonationsDb) (ledger : PointsDb)
    (d : DonationRec) (hav : d.status = "available") :
    donationCreatePost db ledger d
      = (.serverError .typeError, donationsSuperSave db d, ledger) ∧
    (donationSave db ledger d).ledger = ledger := by
  have hsave : donationSave db ledger d
      = ⟨donationsSuperSave db d, ledger, some .typeError⟩ := by
    simp [donationSave, hav, pointObjectsCreatePoints10]
  exact ⟨by simp [donationCreatePost, hsave], by rw [hsave]⟩

/-- C1 witness: donor 7 with balance 0 creates an available donation; the
create returns a 500 and the ledger still holds balance 0, not 10. -/
theorem C1_reward_trigger_bug_witness :
    (DonationRec.mk 1 7 none "available").status = "available" ∧
    (donationCreatePost [] [⟨7, 0⟩] ⟨1, 7, none, "available"⟩
      = (.serverError .typeError,
         donationsSuperSave [] ⟨1, 7, none, "available"⟩, [⟨7, 0⟩]) ∧
     (donationSave [] [⟨7, 0⟩] ⟨1, 7, none, "available"⟩).ledger = [⟨7, 0⟩]) :=
  ⟨by decide, C1_reward_trigger_bug [] [⟨7, 0⟩] ⟨1, 7, none, "available"⟩ rfl⟩

/-- C4 counterexample: with an empty donation store, a request by user 1
naming recipient 2 — requesting user and recipient differ — returns
NotFound, not the Forbidden the claim puts first: the object lookup runs
before the permission check. -/
theorem C4_counterexample :
    reserveDonationPatch [] [] 5 1 (some 2) = (.notFound, [], []) ∧
    ReserveResp.notFound ≠ ReserveResp.forbidden := by
  refine ⟨by decide, by decide⟩

/-- C4 (amended): Reserve fails NotFound when the donation does not exist
(this lookup precedes every other check); on an existing donation it fails
Forbidden whenever the supplied recipient differs from the requesting user,
then InvalidTransition when the status is not "available", then
InvalidArgument when the recipient is absent; otherwise it binds the
recipient, sets status "reserved", persists, and returns the updated
donation. -/
theorem C4_reserve_contract :
    (∀ db ledger i u r, donationsGet db i = none →
       reserveDonationPatch db ledger i u r = (.notFound, db, ledger)) ∧
    (∀ db ledger i u rr d, donationsGet db i = some d → u ≠ rr →
       reserveDonationPatch db ledger i u (some rr) = (.forbidden, db, ledger)) ∧
    (∀ db ledger i u r d, donationsGet db i = some d →
       forbiddenCheck u r = false → d.status ≠ "available" →
       reserveDonationPatch db ledger i u r = (.notAvailable, db, ledger)) ∧
    (∀ db ledger i u d, donationsGet db i = some d → d.status = "available" →
       reserveDonationPatch db ledger i u none = (.missingRecipient, db, ledger)) ∧
    (∀ db ledger i u d, donationsGet db i = some d → d.status = "available" →
       reserveDonationPatch db ledger i u (some u)
         = (.ok { d with recipient := some u, status := "reserved" },
            donationsSuperSave db { d with recipient := some u, status := "reserved" },
            ledger)) := by
  refine ⟨?_, ?_, ?_, ?_, ?_⟩
  · intro db ledger i u r hd
    simp [reserveDonationPatch, reserveCheckPhase, hd]
  · intro db ledger i u rr d hd hne
    have hfb : forbiddenCheck u (some rr) = true := by
      simp [forbiddenCheck, hne]
    simp [reserveDonationPatch, reserveCheckPhase, hd, hfb]
  · intro db ledger i u r d hd hfb hst
    exact reserveDonationPatch_notAvailable db ledger i u r d hd hfb hst
  · intro db ledger i u d hd hav
    simp [reserveDonationPatch, reserveCheckPhase, hd, forbiddenCheck, hav]
  · intro db ledger i u d hd hav
    exact reserveDonationPatch_success db ledger i u d hd hav

/-- C4 witness: the five branches at concrete inputs — a missing donation, a
foreign recipient, a reserved donation, a missing recipient field, and a
successful self-reservation. -/
theorem C4_reserve_contract_witness :
    (donationsGet [] 5 = none →
      reserveDonationPatch [] [] 5 1 (some 1) = (.notFound, [], [])) ∧
    (donationsGet [⟨1, 9, none, "available"⟩] 1 = some ⟨1, 9, none, "available"⟩ →
      (2 : Nat) ≠ 3 →
      reserveDonationPatch [⟨1, 9, none, "available"⟩] [] 1 2 (some 3)
        = (.forbidden, [⟨1, 9, none, "available"⟩], [])) ∧
    (donationsGet [⟨1, 9, some 4, "reserved"⟩] 1 = some ⟨1, 9, some 4, "reserved"⟩ →
      forbiddenCheck 2 (some 2) = false →
      (DonationRec.mk 1 9 (some 4) "reserved").status ≠ "available" →
      reserveDonationPatch [⟨1, 9, some 4, "reserved"⟩] [] 1 2 (some 2)
        = (.notAvailable, [⟨1, 9, some 4, "reserved"⟩], [])) ∧
    (donationsGet [⟨1, 9, none, "available"⟩] 1 = some ⟨1, 9, none, "available"⟩ →
      (DonationRec.mk 1 9 none "available").status = "available" →
      reserveDonationPatch [⟨1, 9, none, "available"⟩] [] 1 2 none
        = (.missingRecipient, [⟨1, 9, none, "available"⟩], [])) ∧
    (donationsGet [⟨1, 9, none, "available"⟩] 1 = some ⟨1, 9, none, "available"⟩ →
      (DonationRec.mk 1 9 none "available").status = "available" →
      reserveDonationPatch [⟨1, 9, none, "available"⟩] [] 1 2 (some 2)
        = (.ok ⟨1, 9, some 2, "reserved"⟩,
           donationsSuperSave [⟨1, 9, none, "available"⟩] ⟨1, 9, some 2, "reserved"⟩,
           [])) :=
  ⟨fun h => C4_reserve_contract.1 [] [] 5 1 (some 1) h,
   fun h hne => C4_reserve_contract.2.1 [⟨1, 9, none, "available"⟩] [] 1 2 3
     ⟨1, 9, none, "available"⟩ h hne,
   fun h hfb hst => C4_reserve_contract.2.2.1 [⟨1, 9, some 4, "reserved"⟩] [] 1 2
     (some 2) ⟨1, 9, some 4, "reserved"⟩ h hfb hst,
   fun h hav => C4_reserve_contract.2.2.2.1 [⟨1, 9, none, "available"⟩] [] 1 2
     ⟨1, 9, none, "available"⟩ h hav,
   fun h hav => C4_reserve_contract.2.2.2.2 [⟨1, 9, none, "available"⟩] [] 1 2
     ⟨1, 9, none, "available"⟩ h hav⟩

/-- C5 counterexample: the status-update view does not reject recipient
rebinding. On a reserved donation already bound to recipient 2, a patch
supplying status "collected" and recipient 3 succeeds and persists
recipient 3 — no InvalidTransition. And a patch supplying status
"available" and recipient 4 persists a row whose status is "available"
with a non-null recipient, breaking the claimed invariant in the store
(the response is a 500 only because the reward trigger raises after the
row was written). -/
theorem C5_counterexample :
    donationStatusUpdatePatch [⟨1, 9, some 2, "reserved"⟩] [] 1
        (some "collected") (some 3)
      = (.ok ⟨1, 9, some 3, "collected"⟩, [⟨1, 9, some 3, "collected"⟩], []) ∧
    donationStatusUpdatePatch [⟨1, 9, none, "reserved"⟩] [] 1
        (some "available") (some 4)
      = (.serverError .typeError, [⟨1, 9, some 4, "available"⟩], []) := by
  refine ⟨by decide, by decide⟩

/-- C5 (amended): the donation status-update view enforces no
recipient/status invariant. For any existing donation and any valid status
value, a supplied recipient is bound unconditionally — regardless of the
current status and of any recipient already bound — the status is set, and
the row is persisted; the response is the updated donation, except that a
patch to "available" returns a 500 from the reward-trigger TypeError after
the row (recipient included) was already persisted. No InvalidTransition
rejection exists, and the recipient-null-iff-available invariant is not
preserved. -/
theorem C5_no_invariant_guard (db : DonationsDb) (ledger : PointsDb)
    (i : Nat) (d : DonationRec) (s : String) (r : Nat)
    (hd : donationsGet db i = some d) (hs : s ∈ Donation_STATUS_CHOICES) :
    donationStatusUpdatePatch db ledger i (some s) (some r)
      = ((if s = "available" then .serverError .typeError
          else .ok { d with recipient := some r, status := s }),
         donationsSuperSave db { d with recipient := some r, status := s },
         ledger) := by
  have hmem : ¬ (s ∉ Donation_STATUS_CHOICES) := not_not.mpr hs
  simp only [donationStatusUpdatePatch, hd]
  rw [if_neg hmem]
  simp only [donationSave, pointObjectsCreatePoints10]
  by_cases hsa : s = "available"
  · simp [hsa]
  · simp [hsa]

/-- C5 witness: a reserved donation bound to recipient 2 is rebound to
recipient 3 while moving to "collected", with the row persisted. -/
theorem C5_no_invariant_guard_witness :
    donationsGet [⟨1, 9, some 2, "reserved"⟩] 1 = some ⟨1, 9, some 2, "reserved"⟩ ∧
    "collected" ∈ Donation_STATUS_CHOICES ∧
    donationStatusUpdatePatch [⟨1, 9, some 2, "reserved"⟩] [] 1
        (some "collected") (some 3)
      = ((if "collected" = "available" then .serverError .typeError
          else .ok ⟨1, 9, some 3, "collected"⟩),
         donationsSuperSave [⟨1, 9, some 2, "reserved"⟩] ⟨1, 9, some 3, "collected"⟩,
         []) :=
  ⟨by decide, by decide,
   C5_no_invariant_guard [⟨1, 9, some 2, "reserved"⟩] [] 1
     ⟨1, 9, some 2, "reserved"⟩ "collected" 3 (by decide) (by decide)⟩

/-- C8: for each of the five entities, a requested status outside the fixed
enum of that entity makes the status-update view answer with the
invalid-status error naming the valid values, and the store — hence the
status field of the target row — is returned unchanged. -/
theorem C8_invalid_status_guard :
    (∀ db ledger i d s r, donationsGet db i = some d →
       s ∉ Donation_STATUS_CHOICES →
       donationStatusUpdatePatch db ledger i (some s) r
         = (.invalidStatus ("Must be one of: " ++
              String.intercalate ", " Donation_STATUS_CHOICES), db, ledger)) ∧
    (∀ db i row s, db.find? (fun q => q.id == i) = some row →
       s ∉ Order_STATUS_CHOICES →
       orderStatusUpdatePatch db i (some s)
         = (.invalidStatus ("Must be one of: " ++
              String.intercalate ", " Order_STATUS_CHOICES), db)) ∧
    (∀ db i row s, db.find? (fun q => q.id == i) = some row →
       s ∉ Offer_STATUS_CHOICES →
       offerStatusUpdatePatch db i (some s)
         = (.invalidStatus ("Must be one of: " ++
              String.intercalate ", " Offer_STATUS_CHOICES), db)) ∧
    (∀ db i row s, db.find? (fun q => q.id == i) = some row →
       s ∉ Transaction_STATUS_CHOICES →
       transactionStatusUpdatePatch db i (some s)
         = (.invalidStatus ("Must be one of: " ++
              String.intercalate ", " Transaction_STATUS_CHOICES), db)) ∧
    (∀ db i row s, db.find? (fun q => q.id == i) = some row →
       s ∉ Notification_STATUS_CHOICES →
       notificationStatusUpdatePatch db i (some s)
         = (.invalidStatus ("Must be one of: " ++
              String.intercalate ", " Notification_STATUS_CHOICES), db)) := by
  refine ⟨?_, ?_, ?_, ?_, ?_⟩
  · intro db ledger i d s r hd hs
    exact donationPatch_invalid db ledger i d s r hd hs
  · intro db i row s hrow hs
    exact statusPatchCore_invalid Order_STATUS_CHOICES db i row s hrow hs
  · intro db i row s hrow hs
    exact statusPatchCore_invalid Offer_STATUS_CHOICES db i row s hrow hs
  · intro db i row s hrow hs
    exact statusPatchCore_invalid Transaction_STATUS_CHOICES db i row s hrow hs
  · intro db i row s hrow hs
    exact statusPatchCore_invalid Notification_STATUS_CHOICES db i row s hrow hs

/-- C8 witness: the five views at concrete stores rejecting the status
string "bogus" with the message naming the valid set, stores unchanged. -/
theorem C8_invalid_status_guard_witness :
    donationStatusUpdatePatch [⟨1, 9, none, "available"⟩] [] 1 (some "bogus") none
      = (.invalidStatus "Must be one of: available, reserved, collected",
         [⟨1, 9, none, "available"⟩], []) ∧
    orderStatusUpdatePatch [⟨1, "pending"⟩] 1 (some "bogus")
      = (.invalidStatus "Must be one of: pending, confirmed, canceled, completed",
         [⟨1, "pending"⟩]) ∧
    offerStatusUpdatePatch [⟨1, "available"⟩] 1 (some "bogus")
      = (.invalidStatus "Must be one of: available, reserved, collected",
         [⟨1, "available"⟩]) ∧
    transactionStatusUpdatePatch [⟨1, "pending"⟩] 1 (some "bogus")
      = (.invalidStatus "Must be one of: pending, successful, failed",
         [⟨1, "pending"⟩]) ∧
    notificationStatusUpdatePatch [⟨1, "sent"⟩] 1 (some "bogus")
      = (.invalidStatus "Must be one of: sent, read", [⟨1, "sent"⟩]) := by
  refine ⟨?_, ?_, ?_, ?_, ?_⟩
  · have h := C8_invalid_status_guard.1 [⟨1, 9, none, "available"⟩] [] 1
      ⟨1, 9, none, "available"⟩ "bogus" none (by decide) (by decide)
    simpa using h
  · have h := C8_invalid_status_guard.2.1 [⟨1, "pending"⟩] 1 ⟨1, "pending"⟩
      "bogus" (by decide) (by decide)
    simpa using h
  · have h := C8_invalid_status_guard.2.2.1 [⟨1, "available"⟩] 1 ⟨1, "available"⟩
      "bogus" (by decide) (by decide)
    simpa using h
  · have h := C8_invalid_status_guard.2.2.2.1 [⟨1, "pending"⟩] 1 ⟨1, "pending"⟩
      "bogus" (by decide) (by decide)
    simpa using h
  · have h := C8_invalid_status_guard.2.2.2.2 [⟨1, "sent"⟩] 1 ⟨1, "sent"⟩
      "bogus" (by decide) (by decide)
    simpa using h

/-- C9 counterexample: two reservation requests on the same available
donation, interleaved so that both read-and-check phases run before either
write — a schedule nothing in the code forbids, since the view takes no
lock and issues no conditional update. Both requests succeed: user 2 and
user 3 each receive a 200, and the second write overwrites the first, so
it is not the case that exactly one succeeds with the other observing
InvalidTransition. -/
theorem C9_counterexample :
    (reserveInterleaved [⟨1, 9, none, "available"⟩] [] 1 2 (some 2) 3 (some 3)).1
      = .ok ⟨1, 9, some 2, "reserved"⟩ ∧
    (reserveInterleaved [⟨1, 9, none, "available"⟩] [] 1 2 (some 2) 3 (some 3)).2.1
      = .ok ⟨1, 9, some 3, "reserved"⟩ ∧
    (reserveInterleaved [⟨1, 9, none, "available"⟩] [] 1 2 (some 2) 3 (some 3)).2.2.1
      = [⟨1, 9, some 3, "reserved"⟩] := by
  refine ⟨by decide, by decide, by decide⟩

/-- C9 (amended): when the two Reserve calls execute sequentially — the
second only after the first has written — exactly one succeeds: the first
returns the reserved donation and the second fails with the
donation-not-available error. The mutual exclusion claimed for concurrent
calls does not hold, because the status check and the status write are
separate steps with no atomic conditional update (see the counterexample
interleaving). -/
theorem C9_sequential_reserve (db : DonationsDb) (ledger : PointsDb)
    (i u1 u2 : Nat) (d : DonationRec)
    (hd : donationsGet db i = some d) (hav : d.status = "available") :
    (reserveDonationPatch db ledger i u1 (some u1)).1
        = .ok { d with recipient := some u1, status := "reserved" } ∧
    (reserveDonationPatch
        (reserveDonationPatch db ledger i u1 (some u1)).2.1
        (reserveDonationPatch db ledger i u1 (some u1)).2.2
        i u2 (some u2)).1 = .notAvailable := by
  have hid : d.id = i := donationsGet_id db i d hd
  subst hid
  have h1 := reserveDonationPatch_success db ledger d.id u1 d hd hav
  refine ⟨by rw [h1], ?_⟩
  rw [h1]
  have hget : donationsGet
      (donationsSuperSave db { d with recipient := some u1, status := "reserved" }) d.id
      = some { d with recipient := some u1, status := "reserved" } :=
    donationsGet_superSave_self db
      { d with recipient := some u1, status := "reserved" } d hd
  have h3 := reserveDonationPatch_notAvailable
    (donationsSuperSave db { d with recipient := some u1, status := "reserved" })
    ledger d.id u2 (some u2)
    { d with recipient := some u1, status := "reserved" }
    hget (by simp [forbiddenCheck]) (by simp)
  rw [h3]

/-- C9 witness: the sequential pair on a concrete available donation — the
first reservation succeeds, the second observes the not-available error. -/
theorem C9_sequential_reserve_witness :
    donationsGet [⟨1, 9, none, "available"⟩] 1 = some ⟨1, 9, none, "available"⟩ ∧
    (DonationRec.mk 1 9 none "available").status = "available" ∧
    ((reserveDonationPatch [⟨1, 9, none, "available"⟩] [] 1 2 (some 2)).1
        = .ok ⟨1, 9, some 2, "reserved"⟩ ∧
     (reserveDonationPatch
        (reserveDonationPatch [⟨1, 9, none, "available"⟩] [] 1 2 (some 2)).2.1
        (reserveDonationPatch [⟨1, 9, none, "available"⟩] [] 1 2 (some 2)).2.2
        1 3 (some 3)).1 = .notAvailable) :=
  ⟨by decide, by decide,
   C9_sequential_reserve [⟨1, 9, none, "available"⟩] [] 1 2 3
     ⟨1, 9, none, "available"⟩ (by decide) (by decide)⟩

end WasteZero
